import Mathlib

/-!
Verification development for the gamle daily-game engine.

The definitions below are a shallow embedding of the TypeScript source:

* `src/lib/random.ts` — the mulberry32 seeded generator and its helpers.
  JS 32-bit bitwise semantics are modelled on `Nat` with explicit `% 2^32`
  (the source's `>>> 0` is exactly reduction mod `2^32`; `Math.imul` is
  multiplication mod `2^32`).  The float value `random()` returns is the
  exact rational `out / 2^32`, so index computations
  `Math.floor(random() * n)` coincide with Nat division `out * n / 2^32`
  (the products involved stay below `2^53`, where float arithmetic is exact),
  and the gate `random() < 0.3` coincides with `10 * out < 3 * 2^32`.
* `src/lib/gameGenerator.ts` — compatibility tables and `generateGameConfig`.
* the per-mechanic game components — their init effects and input/tick/timer
  handlers, modelled as pure transition functions on an explicit state value
  (the React `useState`/effect machinery is serialized away; a closure
  mutating a `useRef`/`useState` cell becomes explicit state passing).
-/

namespace Gamle

/-- Two to the 32, the modulus of all JS 32-bit bit operations. -/
def m32 : Nat := 4294967296

/-- One step of the mulberry32 generator from `createSeededRandom`
(`src/lib/random.ts`).  The internal state is the unsigned 32-bit pattern of
the JS variable `state`.  Returns `(out, newState)` where the JS call returns
the float `out / 2^32`.  The trailing `% m32` is the source's `>>> 0`. -/
def mulberryNext (s : Nat) : Nat × Nat :=
  let s1 := (s + 0x6d2b79f5) % m32
  let t1 := ((s1 ^^^ (s1 >>> 15)) * (1 ||| s1)) % m32
  let t2 := ((t1 + ((t1 ^^^ (t1 >>> 7)) * (61 ||| t1)) % m32) % m32) ^^^ t1
  ((t2 ^^^ (t2 >>> 14)) % m32, s1)

/-- Unsigned 32-bit pattern of the initial state `state = seed` after the
first `state |= 0` (JS `ToInt32`, which is reduction mod `2^32` on the bit
pattern) for an integer seed. -/
def seedState (seed : Int) : Nat :=
  (seed % (m32 : Int)).toNat

/-- Index computed by `Math.floor(random() * n)` when `random()` returned the
exact rational `r / 2^32`. -/
def pickIndex (r n : Nat) : Nat := r * n / m32

/-- Embedding of `pickRandom` (`src/lib/random.ts`):
`array[Math.floor(random() * array.length)]`.  A JS out-of-bounds read yields
`undefined`, modelled as `none`.  Note the source has no defensive clamp of
the index to `length - 1`. -/
def pickRandom (l : List α) (r : Nat) : Option α :=
  l[pickIndex r l.length]?

/-- Embedding of the destructuring swap
`[a[i], a[j]] = [a[j], a[i]]` used by `shuffleArray`.  When either index is
out of bounds (which never happens for indices produced from a generator
value `< 2^32`) the swap is modelled as the identity. -/
def listSwap (l : List α) (i j : Nat) : List α :=
  match l[i]?, l[j]? with
  | some a, some b => (l.set i b).set j a
  | _, _ => l

/-- Loop of `shuffleArray` (`src/lib/random.ts`), counting the loop variable
`i` down; at loop value `i+1` the source draws `j = floor(random()*(i+2))`
and swaps positions `i+1` and `j`.  The random closure is modelled by an
explicit generator state `g` and step function `nextFn`. -/
def shuffleAux (nextFn : σ → Nat × σ) : Nat → List α → σ → List α × σ
  | 0, l, g => (l, g)
  | i + 1, l, g =>
    let p := nextFn g
    shuffleAux nextFn i (listSwap l (i + 1) (pickIndex p.1 (i + 2))) p.2

/-- Embedding of `shuffleArray` (`src/lib/random.ts`): copies the input
(`[...array]`, so the argument itself is never mutated — in this pure
embedding the input list trivially survives unchanged) and runs a
Fisher–Yates loop from `length - 1` down to `1`. -/
def shuffleArray (l : List α) (g : σ) (nextFn : σ → Nat × σ) : List α × σ :=
  shuffleAux nextFn (l.length - 1) l g

/-- Embedding of `pickRandomN` (`src/lib/random.ts`):
`shuffleArray(array, random).slice(0, n)`. -/
def pickRandomN (l : List α) (n : Nat) (g : σ) (nextFn : σ → Nat × σ) :
    List α × σ :=
  let p := shuffleArray l g nextFn
  (p.1.take n, p.2)

/-- Mechanic union type from `src/lib/types.ts`.  The source string
`'match'` is a Lean keyword, hence the quoted constructor name. -/
inductive Mechanic
  | guess | «match» | remember | react | arrange | deduce
  | trace | hunt | stack | dodge | chase | bounce
  deriving DecidableEq, Repr

/-- Element union type from `src/lib/types.ts`. -/
inductive Element
  | words | colors | shapes | numbers | patterns | emoji | directions | math
  deriving DecidableEq, Repr

/-- Constraint union type from `src/lib/types.ts`. -/
inductive Constraint
  | attempts | time | sequence | grid | streak | precision | survival | laps
  deriving DecidableEq, Repr

/-- Modifier union type from `src/lib/types.ts`. -/
inductive Modifier
  | hidden | inverted | chained | speed | mirrored | blind | zen | chaos
  | turbo | gravity
  deriving DecidableEq, Repr

/-- The `MECHANICS` list of `src/lib/gameGenerator.ts`. -/
def MECHANICS : List Mechanic :=
  [.guess, .«match», .remember, .react, .arrange, .deduce,
   .trace, .hunt, .stack, .dodge, .chase, .bounce]

/-- The `MODIFIERS` list of `src/lib/gameGenerator.ts`. -/
def MODIFIERS : List Modifier :=
  [.hidden, .inverted, .chained, .speed, .mirrored, .blind, .zen, .chaos,
   .turbo, .gravity]

/-- The `COMPATIBLE_COMBOS` record of `src/lib/gameGenerator.ts`. -/
def COMPATIBLE_COMBOS : Mechanic → List Element
  | .guess => [.words, .colors, .numbers, .patterns, .emoji, .math]
  | .«match» => [.colors, .shapes, .patterns, .numbers, .emoji]
  | .remember => [.colors, .shapes, .patterns, .numbers, .emoji, .directions]
  | .react => [.colors, .shapes, .numbers, .emoji, .directions]
  | .arrange => [.numbers, .colors, .shapes, .patterns, .emoji, .math]
  | .deduce => [.numbers, .colors, .patterns, .words, .math]
  | .trace => [.directions, .shapes, .patterns, .colors]
  | .hunt => [.emoji, .shapes, .colors, .numbers]
  | .stack => [.colors, .shapes, .numbers, .emoji, .math]
  | .dodge => [.colors, .shapes, .numbers, .emoji]
  | .chase => [.colors, .shapes, .numbers, .emoji]
  | .bounce => [.colors, .shapes, .numbers, .emoji]

/-- The `COMPATIBLE_CONSTRAINTS` record of `src/lib/gameGenerator.ts`. -/
def COMPATIBLE_CONSTRAINTS : Mechanic → List Constraint
  | .guess => [.attempts, .time]
  | .«match» => [.attempts, .time, .grid]
  | .remember => [.attempts, .sequence, .time, .streak]
  | .react => [.time, .sequence, .streak, .precision]
  | .arrange => [.attempts, .grid, .time]
  | .deduce => [.attempts, .time, .grid]
  | .trace => [.attempts, .time, .precision]
  | .hunt => [.time, .attempts, .streak]
  | .stack => [.time, .attempts, .streak, .precision]
  | .dodge => [.time, .survival]
  | .chase => [.time, .survival, .laps]
  | .bounce => [.survival, .time]

/-- The `GameConfig` record of `src/lib/types.ts`. -/
structure GameConfig where
  mechanic : Mechanic
  element : Element
  constraint : Constraint
  modifier : Option Modifier
  seed : Int
  difficulty : Nat
  deriving DecidableEq, Repr

/-- Sequence of draws of `generateGameConfig` (`src/lib/gameGenerator.ts`)
from the 32-bit generator state, producing the seed-independent fields
`(mechanic, element, constraint, modifier, difficulty)`.  Draw order —
mechanic, element, constraint, modifier gate, (modifier), difficulty —
follows the source line by line.  The modifier gate `random() < 0.3`
is the exact test `10 * r < 3 * 2^32` (see file comment). -/
def drawConfigCore (s0 : Nat) :
    Option (Mechanic × Element × Constraint × Option Modifier × Nat) :=
  (pickRandom MECHANICS (mulberryNext s0).1).bind fun mechanic =>
  (pickRandom (COMPATIBLE_COMBOS mechanic)
      (mulberryNext (mulberryNext s0).2).1).bind fun element =>
  (pickRandom (COMPATIBLE_CONSTRAINTS mechanic)
      (mulberryNext (mulberryNext (mulberryNext s0).2).2).1).bind
    fun constraint =>
  if 10 * (mulberryNext
      (mulberryNext (mulberryNext (mulberryNext s0).2).2).2).1 < 3 * m32 then
    (pickRandom MODIFIERS (mulberryNext (mulberryNext
        (mulberryNext (mulberryNext (mulberryNext s0).2).2).2).2).1).bind
      fun modifier =>
    some (mechanic, element, constraint, some modifier,
      pickIndex (mulberryNext (mulberryNext (mulberryNext
        (mulberryNext (mulberryNext (mulberryNext s0).2).2).2).2).2).1 3 + 2)
  else
    some (mechanic, element, constraint, none,
      pickIndex (mulberryNext (mulberryNext
        (mulberryNext (mulberryNext (mulberryNext s0).2).2).2).2).1 3 + 2)

/-- Embedding of `generateGameConfig` (`src/lib/gameGenerator.ts`).  The
function builds one seeded generator from the seed and draws every field
from it; `none` would indicate an out-of-bounds pick, which never occurs. -/
def generateGameConfig (seed : Int) : Option GameConfig :=
  (drawConfigCore (seedState seed)).map fun c =>
    { mechanic := c.1, element := c.2.1, constraint := c.2.2.1,
      modifier := c.2.2.2.1, seed := seed, difficulty := c.2.2.2.2 }

/-- Seed-independent projection of a generated config: every field except
the stored seed. -/
def configCore (c : GameConfig) :
    Mechanic × Element × Constraint × Option Modifier × Nat :=
  (c.mechanic, c.element, c.constraint, c.modifier, c.difficulty)

/-- Value payload of a recorded move (`GameMove.value` is `unknown` in
`src/lib/types.ts`; the embedded handlers only ever store a string, a
number, an index pair or a string pair). -/
inductive MoveVal
  | str (s : String)
  | int (v : Int)
  | pair (a b : Nat)
  | strPair (a b : String)
  deriving DecidableEq, Repr

/-- The `GameMove` record of `src/lib/types.ts`; `timestamp` is the
`Date.now()` value passed into each handler as an explicit argument. -/
structure GameMove where
  type : String
  value : MoveVal
  timestamp : Int
  correct : Option Bool
  deriving DecidableEq, Repr

/-- The `GameState` record of `src/lib/types.ts`.  The opaque `data` payload
is modelled by the per-mechanic simulator records below (its only generic
use, the `initialized` flag, gates the init effect which is run exactly once
here by construction). -/
structure GameState where
  config : GameConfig
  started : Bool
  completed : Bool
  won : Bool
  score : Int
  maxScore : Int
  attempts : Nat
  maxAttempts : Nat
  timeElapsed : Int
  timeLimit : Option Int
  moves : List GameMove
  deriving DecidableEq, Repr

/-- Per-mechanic base attempt table inside `getBaseAttempts`
(`src/lib/gameGenerator.ts`). -/
def baseAttempts : Mechanic → Int
  | .guess => 6
  | .«match» => 20
  | .remember => 3
  | .react => 5
  | .arrange => 15
  | .deduce => 8
  | .trace => 3
  | .hunt => 10
  | .stack => 10
  | .dodge => 3
  | .chase => 3
  | .bounce => 3

/-- Embedding of `getBaseAttempts` (`src/lib/gameGenerator.ts`): difficulty
adjustment clamped at 3 first, then modifier bonuses. -/
def getBaseAttempts (c : GameConfig) : Nat :=
  let a1 : Int := max 3 (baseAttempts c.mechanic - ((c.difficulty : Int) - 2))
  let a2 : Int := if c.modifier = some .chained then a1 + 2 else a1
  let a3 : Int := if c.modifier = some .zen then a2 + 5 else a2
  a3.toNat

/-- Per-mechanic base time table inside `getTimeLimit`
(`src/lib/gameGenerator.ts`). -/
def baseTime : Mechanic → Int
  | .guess => 120
  | .«match» => 60
  | .remember => 45
  | .react => 30
  | .arrange => 90
  | .deduce => 120
  | .trace => 60
  | .hunt => 45
  | .stack => 60
  | .dodge => 60
  | .chase => 90
  | .bounce => 120

/-- Embedding of `getTimeLimit` (`src/lib/gameGenerator.ts`). -/
def getTimeLimit (c : GameConfig) : Option Int :=
  if c.constraint ≠ .time ∧ c.constraint ≠ .streak ∧ c.constraint ≠ .survival
  then none
  else
    let t1 := baseTime c.mechanic
    let t2 := if c.modifier = some .speed then t1 / 2 else t1
    let t3 := if c.modifier = some .zen then t2 * 2 else t2
    some t3

/-- Per-mechanic base score table inside `getMaxScore`
(`src/lib/gameGenerator.ts`). -/
def baseMaxScore : Mechanic → Int
  | .guess => 6
  | _ => 100

/-- Embedding of `getMaxScore` (`src/lib/gameGenerator.ts`). -/
def getMaxScore (c : GameConfig) : Int :=
  baseMaxScore c.mechanic * c.difficulty

/-- Embedding of `createInitialGameState` (`src/lib/gameGenerator.ts`). -/
def createInitialGameState (config : GameConfig) : GameState :=
  { config := config
    started := false
    completed := false
    won := false
    score := 0
    maxScore := getMaxScore config
    attempts := 0
    maxAttempts := getBaseAttempts config
    timeElapsed := 0
    timeLimit := getTimeLimit config
    moves := [] }

/-- Calendar date triple `(getFullYear(), getMonth(), getDate())` — the
month is 0-based, exactly the decomposition `getDailySeed` reads off a JS
`Date`. -/
structure CalDate where
  year : Nat
  month : Nat
  day : Nat
  deriving DecidableEq, Repr

/-- Embedding of `getDailySeed` (`src/lib/random.ts`). -/
def getDailySeed (d : CalDate) : Nat :=
  d.year * 10000 + d.month * 100 + d.day

/-- Embedding of `getDateFromSeed` (`src/lib/random.ts`); the resulting
triple is what the source passes to `new Date(year, month, day)`. -/
def getDateFromSeed (seed : Nat) : CalDate :=
  { year := seed / 10000, month := seed % 10000 / 100, day := seed % 100 }

/-- Shared shape of the `{ value, color? }` item records used by the game
components. -/
structure ElemItem where
  value : String
  color : Option String
  deriving DecidableEq, Repr, Inhabited

/-- The `Item` record of `ArrangeGame.tsx`. -/
structure Item where
  id : Nat
  value : String
  sortValue : Int
  color : Option String
  deriving DecidableEq, Repr, Inhabited

/-- The `ArrangeData` record of `ArrangeGame.tsx`. -/
structure ArrangeData where
  items : List Item
  targetOrder : List Nat
  selected : Option Nat
  deriving DecidableEq, Repr

/-- Insert an item after all items of smaller-or-equal `sortValue` — the
insertion step of a stable ascending sort. -/
def insertBySortValue (x : Item) : List Item → List Item
  | [] => [x]
  | y :: ys =>
    if y.sortValue ≤ x.sortValue then y :: insertBySortValue x ys
    else x :: y :: ys

/-- Stable ascending sort by `sortValue`, modelling the source's
`[...items].sort((a, b) => a.sortValue - b.sortValue)` (JS `Array.sort` is
stable and this comparator orders ascending; an insertion sort that places
each element after existing equals computes the same list). -/
def sortBySortValue (l : List Item) : List Item :=
  l.foldl (fun acc x => insertBySortValue x acc) []

/-- Embedding of the `ArrangeGame` init effect (`ArrangeGame.tsx`) for
`element = numbers`: shuffle `[1..20]`, keep `4 + difficulty`, the target
order sorts the kept ids by numeric value (`[...items].sort((a, b) =>
a.sortValue - b.sortValue)`, a stable ascending sort), then the displayed
items are one further Fisher–Yates shuffle of the same stream.  Note there
is no rejection of a shuffle that happens to coincide with the target
order.  The accompanying `onStateChange` also sets `started` and
`maxScore := count * 10`, which the claims do not touch. -/
def arrangeInitNumbers (seed : Int) (difficulty : Nat) : ArrangeData :=
  let count := 4 + difficulty
  let p := shuffleArray (List.range' 1 20) (seedState seed) mulberryNext
  let nums := p.1.take count
  let items := nums.mapIdx fun i n =>
    { id := i, value := toString n, sortValue := (n : Int), color := none }
  let targetOrder := (sortBySortValue items).map (·.id)
  let q := shuffleArray items p.2 mulberryNext
  { items := q.1, targetOrder := targetOrder, selected := none }

/-- Embedding of `handleSelect` (`ArrangeGame.tsx`).  `checkComplete`
compares the JSON of the id sequence with the target order, i.e. list
equality.  The swap of the two selected positions is the same destructuring
swap as in `shuffleArray`. -/
def arrangeHandleSelect (d : ArrangeData) (s : GameState) (index : Nat)
    (now : Int) : ArrangeData × GameState :=
  if s.completed then (d, s) else
  match d.selected with
  | none => ({ d with selected := some index }, s)
  | some sel =>
    if sel = index then ({ d with selected := none }, s)
    else
      let newItems := listSwap d.items sel index
      let move : GameMove :=
        { type := "arrange", value := .pair sel index, timestamp := now,
          correct := none }
      let attempts := s.attempts + 1
      let isComplete := newItems.map (·.id) == d.targetOrder
      let score : Int :=
        if isComplete then max 10 (s.maxScore - (attempts : Int) * 2) else 0
      let d1 := { d with items := newItems, selected := none }
      if isComplete then
        (d1, { s with attempts := attempts, completed := true, won := true,
                      score := score, moves := s.moves ++ [move] })
      else if attempts ≥ s.maxAttempts then
        (d1, { s with attempts := attempts, completed := true, won := false,
                      score := 0, moves := s.moves ++ [move] })
      else
        (d1, { s with attempts := attempts, moves := s.moves ++ [move] })

/-- Target value of `DeduceGame` — a string or a number in the source. -/
inductive TVal
  | s (v : String)
  | n (v : Int)
  deriving DecidableEq, Repr

/-- MoveVal payload of a deduce guess. -/
def TVal.toMoveVal : TVal → MoveVal
  | .s v => .str v
  | .n v => .int v

/-- Case-insensitive string comparison arm of the `correct` test in
`submitGuess` (`DeduceGame`). -/
def tvalLowerEq : TVal → TVal → Bool
  | .s a, .s b => a.toLower == b.toLower
  | _, _ => false

/-- The `Clue` record of `DeduceGame`. -/
structure Clue where
  type : String
  value : String
  revealed : Bool
  deriving DecidableEq, Repr, Inhabited

/-- The `DeduceData` record of `DeduceGame`. -/
structure DeduceData where
  target : TVal
  clues : List Clue
  guesses : List TVal
  options : List TVal
  revealedClues : Nat
  deriving DecidableEq, Repr

/-- Embedding of `submitGuess` (`DeduceGame`).  Returns the new mechanic
data, the new `selectedOption` cell (cleared only in the guess-again
branch, as in the source) and the new session state. -/
def deduceSubmitGuess (d : DeduceData) (s : GameState)
    (selectedOption : Option TVal) (now : Int) :
    DeduceData × Option TVal × GameState :=
  if s.completed then (d, selectedOption, s) else
  match selectedOption with
  | none => (d, selectedOption, s)
  | some guess =>
    let correct := guess == d.target || tvalLowerEq guess d.target
    let move : GameMove :=
      { type := "deduce", value := guess.toMoveVal, timestamp := now,
        correct := some correct }
    let newGuesses := d.guesses ++ [guess]
    let attempts := s.attempts + 1
    if correct then
      let score : Int :=
        max 20 (s.maxScore - ((d.revealedClues : Int) - 1) * 20)
      ({ d with guesses := newGuesses }, some guess,
       { s with attempts := attempts, completed := true, won := true,
                score := score, moves := s.moves ++ [move] })
    else if attempts ≥ s.maxAttempts then
      ({ d with guesses := newGuesses }, some guess,
       { s with attempts := attempts, completed := true, won := false,
                score := 0, moves := s.moves ++ [move] })
    else
      ({ d with guesses := newGuesses }, none,
       { s with attempts := attempts, moves := s.moves ++ [move] })

/-- Embedding of `revealClue` (`DeduceGame`): reveal the first unrevealed
clue, strictly in the precomputed order. -/
def deduceRevealClue (d : DeduceData) (s : GameState) : DeduceData :=
  if s.completed then d else
  match d.clues.findIdx? (fun c => !c.revealed) with
  | none => d
  | some i =>
    match d.clues[i]? with
    | none => d
    | some c =>
      { d with clues := d.clues.set i { c with revealed := true },
               revealedClues := d.revealedClues + 1 }

/-- The `HiddenItem` record of `HuntGame`. -/
structure HiddenItem where
  id : Nat
  value : String
  color : Option String
  x : ℚ
  y : ℚ
  found : Bool
  isTarget : Bool
  deriving DecidableEq, Repr, Inhabited

/-- The `HuntData` record of `HuntGame`. -/
structure HuntData where
  items : List HiddenItem
  target : ElemItem
  found : Nat
  totalTargets : Nat
  round : Nat
  deriving DecidableEq, Repr

/-- Embedding of `handleClick` (`HuntGame`).  On the final miss the session
score field is left untouched (the score earned so far survives the
loss). -/
def huntHandleClick (d : HuntData) (s : GameState) (item : HiddenItem)
    (now : Int) : HuntData × GameState :=
  if s.completed then (d, s) else
  if item.found then (d, s) else
  let move : GameMove :=
    { type := "hunt", value := .str item.value, timestamp := now,
      correct := some item.isTarget }
  let newItems := d.items.map fun i =>
    if i.id == item.id then { i with found := true } else i
  if item.isTarget then
    let newFound := d.found + 1
    let score : Int := (newFound : Int) * 20
    if newFound ≥ d.totalTargets then
      ({ d with items := newItems, found := newFound },
       { s with completed := true, won := true, score := score,
                moves := s.moves ++ [move] })
    else
      ({ d with items := newItems, found := newFound },
       { s with score := score, moves := s.moves ++ [move] })
  else
    let attempts := s.attempts + 1
    if attempts ≥ s.maxAttempts then
      ({ d with items := newItems },
       { s with attempts := attempts, completed := true, won := false,
                moves := s.moves ++ [move] })
    else
      ({ d with items := newItems },
       { s with attempts := attempts, moves := s.moves ++ [move] })

/-- Embedding of the `HuntGame` countdown effect: on `timeLeft ≤ 0` the
session completes exactly once (`won` iff at least half the targets were
found — `found >= totalTargets / 2` over JS floats is `2 * found ≥
totalTargets`); otherwise the displayed countdown decrements. -/
def huntTimerStep (d : HuntData) (s : GameState) (timeLeft : Int) :
    GameState × Int :=
  if s.completed then (s, timeLeft) else
  if timeLeft ≤ 0 then
    ({ s with completed := true, won := decide (2 * d.found ≥ d.totalTargets),
              score := (d.found : Int) * 20 }, timeLeft)
  else (s, timeLeft - 1)

/-- The `Card` record of `MatchGame.tsx`. -/
structure Card where
  id : Nat
  value : String
  color : Option String
  matched : Bool
  flipped : Bool
  deriving DecidableEq, Repr, Inhabited

/-- The `MatchData` record of `MatchGame.tsx`. -/
structure MatchData where
  cards : List Card
  flippedIndices : List Nat
  matchedPairs : Nat
  totalPairs : Nat
  deriving DecidableEq, Repr

/-- Grid size rule of the `MatchGame` init effect. -/
def matchGridSize (difficulty : Nat) : Nat :=
  if difficulty ≤ 2 then 4 else if difficulty ≤ 4 then 6 else 8

/-- Embedding of the `MatchGame` init effect (`MatchGame.tsx`) for
`element = numbers`: `pairs = gridSize²/2` values drawn by shuffling
`[1..20]`, two cards per value (`id = idx*2`, `idx*2+1`), then the deck is
shuffled with the same stream.  The accompanying `onStateChange` sets
`started` and `maxScore := pairs * 10` (see `matchInitStateUpdate`). -/
def matchInitNumbers (seed : Int) (difficulty : Nat) : MatchData :=
  let gridSize := matchGridSize difficulty
  let pairs := gridSize * gridSize / 2
  let p := shuffleArray (List.range' 1 20) (seedState seed) mulberryNext
  let nums := p.1.take pairs
  let cards := (nums.mapIdx fun idx n =>
    [{ id := idx * 2, value := toString n, color := none, matched := false,
       flipped := false },
     { id := idx * 2 + 1, value := toString n, color := none,
       matched := false, flipped := false }]).flatten
  let q := shuffleArray cards p.2 mulberryNext
  { cards := q.1, flippedIndices := [], matchedPairs := 0,
    totalPairs := pairs }

/-- Session-state part of the `MatchGame` init effect. -/
def matchInitStateUpdate (d : MatchData) (s : GameState) : GameState :=
  { s with started := true, maxScore := (d.totalPairs : Int) * 10 }

/-- Embedding of `handleCardClick` (`MatchGame.tsx`) together with the
settle `setTimeout` that resolves a second flip, serialized into one
transition (the `isChecking` flag blocks any click until the settle runs,
so no other transition can interleave).  Note that the correct-match branch
increments `attempts` but completes only on `matchedPairs === totalPairs`;
only the mismatch branch tests `attempts >= maxAttempts`. -/
def matchHandleClick (d : MatchData) (s : GameState) (index : Nat)
    (now : Int) : MatchData × GameState :=
  if s.completed then (d, s) else
  match d.cards[index]? with
  | none => (d, s)
  | some card =>
    if card.flipped || card.matched then (d, s) else
    let newCards := d.cards.set index { card with flipped := true }
    let newFlipped := d.flippedIndices ++ [index]
    if newFlipped.length == 2 then
      let first := newFlipped.getD 0 0
      let second := newFlipped.getD 1 0
      match newCards[first]?, newCards[second]? with
      | some card1, some card2 =>
        let move : GameMove :=
          { type := "match", value := .strPair card1.value card2.value,
            timestamp := now, correct := some (card1.value == card2.value) }
        if card1.value == card2.value then
          let resolved := (newCards.set first { card1 with matched := true
            }).set second { card2 with matched := true }
          let newMatchedPairs := d.matchedPairs + 1
          let completed := newMatchedPairs == d.totalPairs
          ({ d with cards := resolved, flippedIndices := [],
                    matchedPairs := newMatchedPairs },
           { s with score := s.score + 10, attempts := s.attempts + 1,
                    completed := completed, won := completed,
                    moves := s.moves ++ [move] })
        else
          let resolved := (newCards.set first { card1 with flipped := false
            }).set second { card2 with flipped := false }
          let attempts := s.attempts + 1
          let completed := decide (attempts ≥ s.maxAttempts)
          ({ d with cards := resolved, flippedIndices := [] },
           { s with attempts := attempts, completed := completed,
                    won := false, moves := s.moves ++ [move] })
      | _, _ => (d, s)
    else
      ({ d with cards := newCards, flippedIndices := newFlipped }, s)

/-- The `GridCell` record of `ChaseGame`. -/
structure GridCell where
  value : String
  color : Option String
  isTarget : Bool
  collected : Bool
  deriving DecidableEq, Repr, Inhabited

/-- The `Enemy` record of `ChaseGame`. -/
structure Enemy where
  x : ℚ
  y : ℚ
  dx : ℚ
  dy : ℚ
  deriving DecidableEq, Repr, Inhabited

/-- The `ChaseData` record of `ChaseGame`. -/
structure ChaseData where
  grid : List (List GridCell)
  playerX : Int
  playerY : Int
  enemies : List Enemy
  target : ElemItem
  collected : Nat
  needed : Nat
  powerUp : Bool
  powerUpTimer : ℚ
  deriving DecidableEq, Repr

/-- Embedding of `movePlayer` (`ChaseGame`). -/
def chaseMovePlayer (d : ChaseData) (s : GameState) (dx dy : Int)
    (now : Int) : ChaseData × GameState :=
  if s.completed then (d, s) else
  let gridSize : Int := d.grid.length
  let newX := max 0 (min (gridSize - 1) (d.playerX + dx))
  let newY := max 0 (min (gridSize - 1) (d.playerY + dy))
  if newX == d.playerX && newY == d.playerY then (d, s) else
  let cell := (d.grid.getD newY.toNat []).getD newX.toNat default
  let newGrid := d.grid.mapIdx fun y row =>
    row.mapIdx fun x c =>
      if y == newY.toNat && x == newX.toNat then { c with collected := true }
      else c
  let move : GameMove :=
    { type := "chase",
      value := .str (if cell.value == "" then "move" else cell.value),
      timestamp := now, correct := some (cell.isTarget || cell.value == "") }
  let hitFresh := cell.isTarget && !cell.collected
  let newCollected := if hitFresh then d.collected + 1 else d.collected
  let score : Int := (newCollected : Int) * 20
  if newCollected ≥ d.needed then
    ({ d with grid := newGrid, playerX := newX, playerY := newY,
              collected := newCollected },
     { s with completed := true, won := true, score := score,
              moves := s.moves ++ [move] })
  else if cell.value != "" && !cell.isTarget && !cell.collected then
    let attempts := s.attempts + 1
    if attempts ≥ s.maxAttempts then
      ({ d with grid := newGrid, playerX := newX, playerY := newY },
       { s with attempts := attempts, completed := true, won := false,
                moves := s.moves ++ [move] })
    else
      ({ d with grid := newGrid, playerX := newX, playerY := newY },
       { s with attempts := attempts, score := score,
                moves := s.moves ++ [move] })
  else
    ({ d with grid := newGrid, playerX := newX, playerY := newY,
              collected := newCollected,
              powerUp := if hitFresh then true else d.powerUp,
              powerUpTimer := if hitFresh then 2 else d.powerUpTimer },
     { s with score := score, moves := s.moves ++ [move] })

/-- Embedding of the `ChaseGame` enemy-collision effect.  The test
`Math.sqrt(dx² + dy²) < 0.8` is stated as `dx² + dy² < 0.64`, which is
equivalent since both sides are nonnegative. -/
def chaseCollideStep (d : ChaseData) (s : GameState) (now : Int) :
    ChaseData × GameState :=
  if s.completed then (d, s) else
  if d.powerUp then (d, s) else
  match d.enemies.find? (fun e =>
      (e.x - (d.playerX : ℚ)) ^ 2 + (e.y - (d.playerY : ℚ)) ^ 2
        < (8 / 10 : ℚ) ^ 2) with
  | none => (d, s)
  | some _ =>
    let attempts := s.attempts + 1
    let move : GameMove :=
      { type := "chase", value := .str "caught", timestamp := now,
        correct := some false }
    if attempts ≥ s.maxAttempts then
      (d, { s with attempts := attempts, completed := true, won := false,
                   moves := s.moves ++ [move] })
    else
      let center : Int := (d.grid.length : Int) / 2
      ({ d with playerX := center, playerY := center },
       { s with attempts := attempts, moves := s.moves ++ [move] })

/-- Embedding of the `ChaseGame` countdown effect. -/
def chaseTimerStep (d : ChaseData) (s : GameState) (timeLeft : Int) :
    GameState × Int :=
  if s.completed then (s, timeLeft) else
  if timeLeft ≤ 0 then
    ({ s with completed := true, won := decide (d.collected ≥ d.needed),
              score := (d.collected : Int) * 20 }, timeLeft)
  else (s, timeLeft - 1)

/-- The `Block` record of `BounceGame`. -/
structure Block where
  x : ℚ
  y : ℚ
  value : String
  color : Option String
  isTarget : Bool
  broken : Bool
  deriving DecidableEq, Repr, Inhabited

/-- The `Ball` record of `BounceGame`. -/
structure Ball where
  x : ℚ
  y : ℚ
  dx : ℚ
  dy : ℚ
  deriving DecidableEq, Repr, Inhabited

/-- The `BounceData` record of `BounceGame`. -/
structure BounceData where
  blocks : List Block
  ball : Ball
  paddleX : ℚ
  target : ElemItem
  broken : Nat
  needed : Nat
  lives : Int
  deriving DecidableEq, Repr

/-- Embedding of the `BounceGame` animation-frame updater (the
`setGameData` body of the game loop).  Floats are modelled as exact
rationals.  `keyLeft`/`keyRight` model the keys held in `keysRef`; `urand`
models the value returned by the **unseeded** `Math.random()` call the
source performs when the ball is lost with lives remaining — the reset
ball's horizontal velocity is `(Math.random() - 0.5) * 60`.  The collided
block is selected by reference identity in the source, modelled by its
index. -/
def bounceTick (prev : BounceData) (delta : ℚ) (keyLeft keyRight : Bool)
    (urand : ℚ) : BounceData :=
  let ball := prev.ball
  let newX0 := ball.x + ball.dx * delta
  let newY0 := ball.y + ball.dy * delta
  let paddleX0 :=
    if keyLeft then max 10 (prev.paddleX - 80 * delta) else prev.paddleX
  let paddleX1 :=
    if keyRight then min 90 (paddleX0 + 80 * delta) else paddleX0
  let wallX := newX0 ≤ 2 || newX0 ≥ 98
  let newDx1 := if wallX then -ball.dx else ball.dx
  let newX1 := if wallX then max 2 (min 98 newX0) else newX0
  let newDy1 := if newY0 ≤ 2 then -ball.dy else ball.dy
  let newY1 := if newY0 ≤ 2 then 2 else newY0
  let paddleWidth : ℚ := 20
  let paddleTop : ℚ := 90
  let paddleHit := newY1 ≥ paddleTop && newY1 ≤ paddleTop + 5 &&
    newX1 ≥ paddleX1 - paddleWidth / 2 && newX1 ≤ paddleX1 + paddleWidth / 2
  let newDy2 := if paddleHit then -|newDy1| else newDy1
  let newDx2 :=
    if paddleHit then newDx1 + (newX1 - paddleX1) / (paddleWidth / 2) * 20
    else newDx1
  let newY2 := if paddleHit then paddleTop - 1 else newY1
  if newY2 > 98 then
    let lives := prev.lives - 1
    if lives ≤ 0 then
      { prev with ball := { ball with x := newX1, y := newY2 },
                  lives := lives }
    else
      { prev with
          ball := { x := 50, y := 80, dx := (urand - 1 / 2) * 60, dy := -40 },
          paddleX := 50, lives := lives }
  else
    let blockWidth : ℚ := 100 / 6
    let blockHeight : ℚ := 8
    match prev.blocks.findIdx? (fun b => !b.broken &&
        newX1 ≥ b.x && newX1 ≤ b.x + blockWidth &&
        newY2 ≥ b.y && newY2 ≤ b.y + blockHeight) with
    | none =>
      { prev with ball := { x := newX1, y := newY2, dx := newDx2,
                            dy := newDy2 },
                  paddleX := paddleX1 }
    | some bi =>
      let b := prev.blocks.getD bi default
      let overlapLeft := newX1 - b.x
      let overlapRight := b.x + blockWidth - newX1
      let overlapTop := newY2 - b.y
      let overlapBottom := b.y + blockHeight - newY2
      let minOverlap :=
        min (min overlapLeft overlapRight) (min overlapTop overlapBottom)
      let vertical := minOverlap == overlapTop || minOverlap == overlapBottom
      let newDy3 := if vertical then -newDy2 else newDy2
      let newDx3 := if vertical then newDx2 else -newDx2
      { prev with
          ball := { x := newX1, y := newY2, dx := newDx3, dy := newDy3 },
          paddleX := paddleX1,
          blocks := prev.blocks.set bi { b with broken := true },
          broken := if b.isTarget then prev.broken + 1 else prev.broken }

/-- The `BounceGame` game-loop effect schedules `bounceTick` only while the
session is not completed (the effect returns early and its cleanup cancels
the pending animation frame otherwise). -/
def bounceFrame (d : BounceData) (s : GameState) (delta : ℚ)
    (keyLeft keyRight : Bool) (urand : ℚ) : BounceData × GameState :=
  if s.completed then (d, s) else
  (bounceTick d delta keyLeft keyRight urand, s)

/-- Embedding of the `BounceGame` win/lose-check effect. -/
def bounceCheckStep (d : BounceData) (s : GameState) : GameState :=
  if s.completed then s else
  if d.broken ≥ d.needed then
    { s with completed := true, won := true, score := (d.broken : Int) * 25 }
  else if d.lives ≤ 0 then
    { s with completed := true, won := false, score := (d.broken : Int) * 25 }
  else s

/-- The `FallingItem` record of `StackGame.tsx`; the source id is the float
`Date.now() + Math.random()`, modelled as a rational. -/
structure FallingItem where
  id : ℚ
  value : TVal
  color : Option String
  x : ℚ
  y : ℚ
  speed : ℚ
  isTarget : Bool
  deriving DecidableEq, Repr

/-- The `StackData` record of `StackGame.tsx`. -/
structure StackData where
  items : List FallingItem
  target : Option ElemItem
  targetSum : Option Int
  currentSum : Int
  collected : Nat
  needed : Nat
  spawnCounter : ℚ
  deriving DecidableEq, Repr

/-- Embedding of `handleCatch` (`StackGame.tsx`).  In number mode the
caught value is cast with `as number`; the string arm can never occur
there and is mapped to 0. -/
def stackHandleCatch (d : StackData) (s : GameState) (item : FallingItem)
    (now : Int) : StackData × GameState :=
  if s.completed then (d, s) else
  let move : GameMove :=
    { type := "stack", value := item.value.toMoveVal, timestamp := now,
      correct := some item.isTarget }
  let newItems := d.items.filter fun i => i.id != item.id
  match d.targetSum with
  | some targetSum =>
    let itemVal : Int := match item.value with | .n v => v | .s _ => 0
    let newSum := d.currentSum + itemVal
    if newSum ≥ targetSum then
      ({ d with items := newItems, currentSum := newSum },
       { s with completed := true, won := true, score := targetSum * 2,
                moves := s.moves ++ [move] })
    else
      ({ d with items := newItems, currentSum := newSum },
       { s with score := newSum * 2, moves := s.moves ++ [move] })
  | none =>
    if item.isTarget then
      let newCollected := d.collected + 1
      let score : Int := (newCollected : Int) * 15
      if newCollected ≥ d.needed then
        ({ d with items := newItems, collected := newCollected },
         { s with completed := true, won := true, score := score,
                  moves := s.moves ++ [move] })
      else
        ({ d with items := newItems, collected := newCollected },
         { s with score := score, moves := s.moves ++ [move] })
    else
      let attempts := s.attempts + 1
      if attempts ≥ s.maxAttempts then
        ({ d with items := newItems },
         { s with attempts := attempts, completed := true, won := false,
                  moves := s.moves ++ [move] })
      else
        ({ d with items := newItems },
         { s with attempts := attempts, moves := s.moves ++ [move] })

/-- Embedding of the `StackGame` countdown effect; the `gameData.targetSum
?` truthiness test is the `Option` match (the sum target is `10 +
difficulty * 5 > 0` whenever present). -/
def stackTimerStep (d : StackData) (s : GameState) (timeLeft : Int) :
    GameState × Int :=
  if s.completed then (s, timeLeft) else
  if timeLeft ≤ 0 then
    match d.targetSum with
    | some ts =>
      ({ s with completed := true, won := decide (d.currentSum ≥ ts),
                score := min d.currentSum ts * 2 }, timeLeft)
    | none =>
      ({ s with completed := true, won := decide (d.collected ≥ d.needed),
                score := (d.collected : Int) * 15 }, timeLeft)
  else (s, timeLeft - 1)

/-- Obstacle record inside `Lane` (`DodgeGame`). -/
structure Obstacle where
  x : ℚ
  value : String
  color : Option String
  isTarget : Bool
  deriving DecidableEq, Repr, Inhabited

/-- The `Lane` record of `DodgeGame`; `direction` is `1` or `-1`. -/
structure Lane where
  obstacles : List Obstacle
  speed : ℚ
  direction : Int
  deriving DecidableEq, Repr, Inhabited

/-- The `DodgeData` record of `DodgeGame`. -/
structure DodgeData where
  playerY : Int
  playerX : ℚ
  lanes : List Lane
  target : ElemItem
  collected : Nat
  needed : Nat
  lives : Int
  deriving DecidableEq, Repr

/-- Embedding of the `DodgeGame` collision-detection effect; the hit
obstacle is selected by reference identity in the source, modelled by its
index within the player's lane. -/
def dodgeCollideStep (d : DodgeData) (s : GameState) (now : Int) :
    DodgeData × GameState :=
  if s.completed then (d, s) else
  let laneIndex := d.playerY - 1
  if laneIndex < 0 || laneIndex ≥ (d.lanes.length : Int) then (d, s) else
  let lane := d.lanes.getD laneIndex.toNat default
  match lane.obstacles.findIdx? (fun o => |o.x - d.playerX| < 8) with
  | none => (d, s)
  | some oi =>
    let obs := lane.obstacles.getD oi default
    let move : GameMove :=
      { type := "dodge", value := .str obs.value, timestamp := now,
        correct := some obs.isTarget }
    let newLanes := d.lanes.mapIdx fun i l =>
      if i == laneIndex.toNat then
        { l with obstacles := l.obstacles.set oi { obs with x := -20 } }
      else l
    if obs.isTarget then
      let newCollected := d.collected + 1
      let score : Int := (newCollected : Int) * 25
      if newCollected ≥ d.needed then
        ({ d with lanes := newLanes, collected := newCollected },
         { s with completed := true, won := true, score := score,
                  moves := s.moves ++ [move] })
      else
        ({ d with lanes := newLanes, collected := newCollected },
         { s with score := score, moves := s.moves ++ [move] })
    else
      let newLives := d.lives - 1
      if newLives ≤ 0 then
        ({ d with lanes := newLanes, lives := newLives },
         { s with attempts := s.attempts + 1, completed := true,
                  won := false, moves := s.moves ++ [move] })
      else
        ({ d with lanes := newLanes, lives := newLives,
                  playerY := (d.lanes.length : Int) },
         { s with attempts := s.attempts + 1, moves := s.moves ++ [move] })

/-- Embedding of the `DodgeGame` countdown effect. -/
def dodgeTimerStep (d : DodgeData) (s : GameState) (timeLeft : Int) :
    GameState × Int :=
  if s.completed then (s, timeLeft) else
  if timeLeft ≤ 0 then
    ({ s with completed := true, won := decide (d.collected ≥ d.needed),
              score := (d.collected : Int) * 25 }, timeLeft)
  else (s, timeLeft - 1)

/-- Color entry of `COLORS.primary` (`src/lib/gameData.ts`); the unused
emoji field is omitted. -/
structure ColorDef where
  name : String
  hex : String
  deriving DecidableEq, Repr, Inhabited

/-- The `COLORS.primary` list of `src/lib/gameData.ts`. -/
def COLORS_primary : List ColorDef :=
  [⟨"Red", "#ef4444"⟩, ⟨"Blue", "#3b82f6"⟩, ⟨"Green", "#22c55e"⟩,
   ⟨"Yellow", "#eab308"⟩, ⟨"Purple", "#a855f7"⟩, ⟨"Orange", "#f97316"⟩]

/-- Shape entry of `SHAPES.basic` (`src/lib/gameData.ts`). -/
structure ShapeDef where
  name : String
  symbol : String
  outline : String
  deriving DecidableEq, Repr, Inhabited

/-- The `SHAPES.basic` list of `src/lib/gameData.ts`. -/
def SHAPES_basic : List ShapeDef :=
  [⟨"Circle", "●", "○"⟩, ⟨"Square", "■", "□"⟩, ⟨"Triangle", "▲", "△"⟩,
   ⟨"Diamond", "◆", "◇"⟩, ⟨"Star", "★", "☆"⟩, ⟨"Heart", "♥", "♡"⟩]

/-- Feedback status of a guess cell (`GuessGame`). -/
inductive FStatus
  | correct | present | absent
  deriving DecidableEq, Repr

/-- One feedback cell of `GuessGame` (source letter is a one-character
string, modelled as `Char`). -/
structure FeedbackCell where
  letter : Char
  status : FStatus
  deriving DecidableEq, Repr

/-- The `GuessData` record of `GuessGame`. -/
structure GuessData where
  target : String
  guesses : List String
  feedback : List (List FeedbackCell)
  deriving DecidableEq, Repr

/-- Second pass of the `GuessGame` feedback computation: positions already
marked exact are kept; otherwise the first unconsumed target position with
the same character is consumed as `present`, else the cell is `absent`. -/
def guessSecondPass : List (Option FeedbackCell × Char) → List Char →
    List Bool → List FeedbackCell
  | [], _, _ => []
  | (some f, _) :: rest, tc, used => f :: guessSecondPass rest tc used
  | (none, c) :: rest, tc, used =>
    match (tc.zip used).findIdx? (fun p => p.1 == c && !p.2) with
    | some j => ⟨c, .present⟩ :: guessSecondPass rest tc (used.set j true)
    | none => ⟨c, .absent⟩ :: guessSecondPass rest tc used

/-- Two-pass feedback of `submitGuess` (`GuessGame`): first mark and
consume exact-position matches, then resolve the rest against unconsumed
target positions — repeated letters are never double-credited. -/
def computeFeedback (target guess : String) : List FeedbackCell :=
  let tc := target.toList
  let gc := guess.toList
  let pairs := gc.zip tc
  let firstPass := pairs.map fun p =>
    if p.1 == p.2 then some (⟨p.1, FStatus.correct⟩ : FeedbackCell) else none
  let used := pairs.map fun p => p.1 == p.2
  guessSecondPass (firstPass.zip gc) tc used

/-- Embedding of `submitGuess` (`GuessGame`).  A guess of the wrong length
is rejected as a cosmetic shake without consuming an attempt.  Returns the
new mechanic data, the new `currentGuess` input buffer and the new session
state. -/
def guessSubmitGuess (d : GuessData) (s : GameState) (currentGuess : String)
    (now : Int) : GuessData × String × GameState :=
  if s.completed then (d, currentGuess, s) else
  if currentGuess.length ≠ d.target.length then (d, currentGuess, s) else
  let guess := currentGuess.toUpper
  let feedback := computeFeedback d.target guess
  let newGuesses := d.guesses ++ [guess]
  let newFeedback := d.feedback ++ [feedback]
  let won := guess == d.target
  let attempts := s.attempts + 1
  let completed := won || decide (attempts ≥ s.maxAttempts)
  let move : GameMove :=
    { type := "guess", value := .str guess, timestamp := now,
      correct := some won }
  let score : Int := if won then (s.maxAttempts : Int) - attempts + 1 else 0
  ({ d with guesses := newGuesses, feedback := newFeedback }, "",
   { s with attempts := attempts, completed := completed, won := won,
            score := score, moves := s.moves ++ [move] })

/-- Phase of `RememberGame`. -/
inductive RPhase
  | showing | waiting | input | feedback
  deriving DecidableEq, Repr

/-- The `RememberData` record of `RememberGame`. -/
structure RememberData where
  sequence : List ElemItem
  currentLevel : Nat
  userInput : List Nat
  phase : RPhase
  showingIndex : Int
  deriving DecidableEq, Repr

/-- Draw `n` sequence items (`Array.from({length: n}, () =>
pickRandom(items, random))`) from a mulberry stream; an empty option list
would read `undefined`, modelled by the default item. -/
def drawSeq (options : List ElemItem) : Nat → Nat → List ElemItem × Nat
  | 0, g => ([], g)
  | n + 1, g =>
    let p := mulberryNext g
    let item := (pickRandom options p.1).getD default
    let rest := drawSeq options n p.2
    (item :: rest.1, rest.2)

/-- Embedding of `handleInput` (`RememberGame`).  The delayed sequence
reset of the guess-again branch (a `setTimeout` touching only mechanic
data) is serialized into the same transition; it redraws a fresh sequence
from `seed + attempts`, and a level-up appends one item drawn from
`seed + newLevel * 100`. -/
def rememberHandleInput (d : RememberData) (s : GameState)
    (options : List ElemItem) (index : Nat) (now : Int) :
    RememberData × GameState :=
  if s.completed then (d, s) else
  if d.phase ≠ .input then (d, s) else
  match d.sequence[d.userInput.length]? with
  | none => (d, s)
  | some expected =>
    let newInput := d.userInput ++ [index]
    let correct :=
      match options.findIdx? (fun o => o.value == expected.value) with
      | some ei => index == ei
      | none => false
    let move : GameMove :=
      { type := "remember", value := .str (options.getD index default).value,
        timestamp := now, correct := some correct }
    if !correct then
      let attempts := s.attempts + 1
      let completed := decide (attempts ≥ s.maxAttempts)
      if completed then
        ({ d with phase := .feedback, userInput := newInput },
         { s with attempts := attempts, completed := true, won := false,
                  moves := s.moves ++ [move] })
      else
        let fresh :=
          drawSeq options (s.config.difficulty + 2)
            (seedState (s.config.seed + attempts))
        ({ sequence := fresh.1, currentLevel := 1, userInput := [],
           phase := .showing, showingIndex := 0 },
         { s with attempts := attempts, completed := false, won := false,
                  moves := s.moves ++ [move] })
    else if newInput.length == d.sequence.length then
      let newScore := s.score + (d.sequence.length : Int)
      let newLevel := d.currentLevel + 1
      if newLevel > s.config.difficulty + 2 then
        ({ d with phase := .feedback, userInput := newInput },
         { s with score := newScore, completed := true, won := true,
                  moves := s.moves ++ [move] })
      else
        let p := mulberryNext (seedState (s.config.seed + newLevel * 100))
        let newItem := (pickRandom options p.1).getD default
        ({ sequence := d.sequence ++ [newItem], currentLevel := newLevel,
           userInput := [], phase := .showing, showingIndex := 0 },
         { s with score := newScore, moves := s.moves ++ [move] })
    else
      ({ d with userInput := newInput },
       { s with moves := s.moves ++ [move] })

/-- Path/option item of `TraceGame` (`key` is only set for direction
elements). -/
structure TraceOption where
  symbol : String
  color : Option String
  key : Option String
  deriving DecidableEq, Repr, Inhabited

/-- The `TraceData` record of `TraceGame`. -/
structure TraceData where
  path : List TraceOption
  currentIndex : Nat
  showingPath : Bool
  userPath : List Nat
  deriving DecidableEq, Repr

/-- Embedding of `handleInput` (`TraceGame`).  A wrong input with attempts
remaining re-enters the showing phase (the delayed un-show `setTimeout`
touches only mechanic data and is not modelled further). -/
def traceHandleInput (d : TraceData) (s : GameState)
    (options : List TraceOption) (index : Nat) (now : Int) :
    TraceData × GameState :=
  if s.completed then (d, s) else
  if d.showingPath then (d, s) else
  match d.path[d.userPath.length]? with
  | none => (d, s)
  | some expected =>
    let correct :=
      match options.findIdx? (fun o =>
          o.symbol == expected.symbol && o.color == expected.color) with
      | some ei => index == ei
      | none => false
    let move : GameMove :=
      { type := "trace", value := .str (options.getD index default).symbol,
        timestamp := now, correct := some correct }
    if !correct then
      let attempts := s.attempts + 1
      let completed := decide (attempts ≥ s.maxAttempts)
      if completed then
        (d, { s with attempts := attempts, completed := true, won := false,
                     moves := s.moves ++ [move] })
      else
        ({ d with userPath := [], showingPath := true, currentIndex := 0 },
         { s with attempts := attempts, completed := false, won := false,
                  moves := s.moves ++ [move] })
    else
      let newUserPath := d.userPath ++ [index]
      if newUserPath.length == d.path.length then
        ({ d with userPath := newUserPath },
         { s with completed := true, won := true,
                  score := (d.path.length : Int) * 10,
                  moves := s.moves ++ [move] })
      else
        ({ d with userPath := newUserPath },
         { s with moves := s.moves ++ [move] })

/-- The `Target` record of `ReactGame.tsx`. -/
structure RTarget where
  id : Nat
  value : String
  color : Option String
  x : ℚ
  y : ℚ
  isTarget : Bool
  clicked : Bool
  deriving DecidableEq, Repr

/-- The `ReactData` record of `ReactGame.tsx`. -/
structure ReactData where
  targets : List RTarget
  currentTarget : Option ElemItem
  round : Nat
  maxRounds : Nat
  hits : Nat
  misses : Nat
  deriving DecidableEq, Repr

/-- Item vocabulary used by `ReactGame` per element. -/
def reactItems : Element → List ElemItem
  | .colors => COLORS_primary.map fun c => ⟨c.name, some c.hex⟩
  | .shapes => SHAPES_basic.map fun sh => ⟨sh.symbol, none⟩
  | _ => (List.range' 1 9).map fun i => ⟨toString i, none⟩

/-- Embedding of `handleClick` (`ReactGame.tsx`).  Hitting the target with
rounds left draws the next round's target from a fresh stream seeded with
`seed + (round + 1) * 100`. -/
def reactHandleClick (d : ReactData) (s : GameState) (target : RTarget)
    (now : Int) : ReactData × GameState :=
  if s.completed then (d, s) else
  if target.clicked then (d, s) else
  let move : GameMove :=
    { type := "react", value := .str target.value, timestamp := now,
      correct := some target.isTarget }
  let newTargets := d.targets.map fun t =>
    if t.id == target.id then { t with clicked := true } else t
  if target.isTarget then
    let newHits := d.hits + 1
    let score : Int := (newHits : Int) * 10
    if newHits ≥ d.maxRounds then
      ({ d with targets := newTargets, hits := newHits },
       { s with completed := true, won := true, score := score,
                moves := s.moves ++ [move] })
    else
      let p := mulberryNext (seedState (s.config.seed + (d.round + 1) * 100))
      let newTarget := pickRandom (reactItems s.config.element) p.1
      ({ d with targets := [], hits := newHits, round := d.round + 1,
                currentTarget := newTarget },
       { s with score := score, moves := s.moves ++ [move] })
  else
    let newMisses := d.misses + 1
    let attempts := s.attempts + 1
    if attempts ≥ s.maxAttempts then
      ({ d with targets := newTargets, misses := newMisses },
       { s with attempts := attempts, completed := true, won := false,
                moves := s.moves ++ [move] })
    else
      ({ d with targets := newTargets, misses := newMisses },
       { s with attempts := attempts, moves := s.moves ++ [move] })

/-- Embedding of the `ReactGame` countdown effect; each second also bumps
`timeElapsed` on the session state. -/
def reactTimerStep (d : ReactData) (s : GameState) (timeLeft : Int) :
    GameState × Int :=
  if s.completed then (s, timeLeft) else
  if timeLeft ≤ 0 then
    ({ s with completed := true, won := decide (2 * d.hits ≥ d.maxRounds),
              score := (d.hits : Int) * 10 }, timeLeft)
  else ({ s with timeElapsed := s.timeElapsed + 1 }, timeLeft - 1)

/-- Mechanic-owned simulator state: the component-local `useState` cells of
each game (mechanic data, plus the countdown cell or input buffer where the
component keeps one). -/
inductive SimData
  | guessS (d : GuessData) (currentGuess : String)
  | matchS (d : MatchData)
  | rememberS (d : RememberData) (options : List ElemItem)
  | reactS (d : ReactData) (timeLeft : Int)
  | arrangeS (d : ArrangeData)
  | deduceS (d : DeduceData) (selectedOption : Option TVal)
  | traceS (d : TraceData) (options : List TraceOption)
  | huntS (d : HuntData) (timeLeft : Int)
  | stackS (d : StackData) (timeLeft : Int)
  | dodgeS (d : DodgeData) (timeLeft : Int)
  | chaseS (d : ChaseData) (timeLeft : Int)
  | bounceS (d : BounceData)
  deriving DecidableEq

/-- One serialized scheduling event: a decoded player input, a countdown
timer firing, an animation frame, or an effect re-run, with the
wall-clock/oracle values it observes passed explicitly. -/
inductive GEvent
  | guessSubmit (now : Int)
  | matchClickEv (index : Nat) (now : Int)
  | rememberInput (index : Nat) (now : Int)
  | reactClick (target : RTarget) (now : Int)
  | reactTimer
  | arrangeSelect (index : Nat) (now : Int)
  | deduceSubmit (now : Int)
  | deduceReveal
  | traceInput (index : Nat) (now : Int)
  | huntClick (item : HiddenItem) (now : Int)
  | huntTimer
  | stackCatchEv (item : FallingItem) (now : Int)
  | stackTimer
  | dodgeCollide (now : Int)
  | dodgeTimer
  | chaseMoveEv (dx dy : Int) (now : Int)
  | chaseCollide (now : Int)
  | chaseTimer
  | bounceFrameEv (delta : ℚ) (keyLeft keyRight : Bool) (urand : ℚ)
  | bounceCheck
  deriving DecidableEq

/-- Single dispatch table over the embedded handlers (spec §4.5/§9: one
simulator per mechanic tag).  An event for a different mechanic than the
active one is a no-op. -/
def stepEvent (ev : GEvent) (sim : SimData × GameState) :
    SimData × GameState :=
  match ev, sim.1 with
  | .guessSubmit now, .guessS d cg =>
    let r := guessSubmitGuess d sim.2 cg now
    (.guessS r.1 r.2.1, r.2.2)
  | .matchClickEv i now, .matchS d =>
    let r := matchHandleClick d sim.2 i now
    (.matchS r.1, r.2)
  | .rememberInput i now, .rememberS d opts =>
    let r := rememberHandleInput d sim.2 opts i now
    (.rememberS r.1 opts, r.2)
  | .reactClick t now, .reactS d tl =>
    let r := reactHandleClick d sim.2 t now
    (.reactS r.1 tl, r.2)
  | .reactTimer, .reactS d tl =>
    let r := reactTimerStep d sim.2 tl
    (.reactS d r.2, r.1)
  | .arrangeSelect i now, .arrangeS d =>
    let r := arrangeHandleSelect d sim.2 i now
    (.arrangeS r.1, r.2)
  | .deduceSubmit now, .deduceS d sel =>
    let r := deduceSubmitGuess d sim.2 sel now
    (.deduceS r.1 r.2.1, r.2.2)
  | .deduceReveal, .deduceS d sel =>
    (.deduceS (deduceRevealClue d sim.2) sel, sim.2)
  | .traceInput i now, .traceS d opts =>
    let r := traceHandleInput d sim.2 opts i now
    (.traceS r.1 opts, r.2)
  | .huntClick item now, .huntS d tl =>
    let r := huntHandleClick d sim.2 item now
    (.huntS r.1 tl, r.2)
  | .huntTimer, .huntS d tl =>
    let r := huntTimerStep d sim.2 tl
    (.huntS d r.2, r.1)
  | .stackCatchEv item now, .stackS d tl =>
    let r := stackHandleCatch d sim.2 item now
    (.stackS r.1 tl, r.2)
  | .stackTimer, .stackS d tl =>
    let r := stackTimerStep d sim.2 tl
    (.stackS d r.2, r.1)
  | .dodgeCollide now, .dodgeS d tl =>
    let r := dodgeCollideStep d sim.2 now
    (.dodgeS r.1 tl, r.2)
  | .dodgeTimer, .dodgeS d tl =>
    let r := dodgeTimerStep d sim.2 tl
    (.dodgeS d r.2, r.1)
  | .chaseMoveEv dx dy now, .chaseS d tl =>
    let r := chaseMovePlayer d sim.2 dx dy now
    (.chaseS r.1 tl, r.2)
  | .chaseCollide now, .chaseS d tl =>
    let r := chaseCollideStep d sim.2 now
    (.chaseS r.1 tl, r.2)
  | .chaseTimer, .chaseS d tl =>
    let r := chaseTimerStep d sim.2 tl
    (.chaseS d r.2, r.1)
  | .bounceFrameEv delta kl kr u, .bounceS d =>
    let r := bounceFrame d sim.2 delta kl kr u
    (.bounceS r.1, r.2)
  | .bounceCheck, .bounceS d =>
    (.bounceS d, bounceCheckStep d sim.2)
  | _, _ => sim

/-- Serialized run of a stream of events (spec §5: transitions never
interleave; each handler reads the latest committed state). -/
def runEvents (evs : List GEvent) (sim : SimData × GameState) :
    SimData × GameState :=
  evs.foldl (fun acc e => stepEvent e acc) sim

/-- The config generated for seed 76623: an arrange/numbers game of
difficulty 2 with no modifier. -/
def cfg76623 : GameConfig :=
  { mechanic := .arrange, element := .numbers, constraint := .grid,
    modifier := none, seed := 76623, difficulty := 2 }

/-- The config generated for seed 110: a match/numbers game of difficulty 2
with no modifier (so `maxAttempts = 20` and an 8-pair 4×4 deck). -/
def cfg110 : GameConfig :=
  { mechanic := .«match», element := .numbers, constraint := .grid,
    modifier := none, seed := 110, difficulty := 2 }

/-- Click trace on the seed-110 deck: fourteen repeated mismatches of
positions 0 and 1 (values 5 and 12; a mismatched pair flips back, so the
same two cards can be mis-paired again), then seven correct pairs
(positions of equal values, leaving the eighth pair untouched). -/
def c8Clicks : List Nat :=
  [0, 1, 0, 1, 0, 1, 0, 1, 0, 1, 0, 1, 0, 1, 0, 1, 0, 1, 0, 1, 0, 1, 0, 1,
   0, 1, 0, 1,
   0, 8, 1, 4, 2, 3, 5, 12, 6, 11, 7, 15, 9, 10]

/-- Serialized run of `matchHandleClick` over a click list. -/
def runMatchClicks (p : MatchData × GameState) (clicks : List Nat) :
    MatchData × GameState :=
  clicks.foldl (fun acc i => matchHandleClick acc.1 acc.2 i 0) p

/-- Session of seed 110 as the app builds it: `createInitialGameState` on
the generated config, then the `MatchGame` init effect. -/
def c8Start : MatchData × GameState :=
  (matchInitNumbers 110 2,
   matchInitStateUpdate (matchInitNumbers 110 2)
     (createInitialGameState cfg110))

/-- Mid-tick `BounceGame` state about to lose the ball: the ball sits at
`(50, 97)` moving straight down at `dy = 40` with 3 lives left, so a
`delta = 0.1` frame takes it to `y = 101 > 98`. -/
def c1Pre : BounceData :=
  { blocks := [], ball := { x := 50, y := 97, dx := 0, dy := 40 },
    paddleX := 50, target := { value := "●", color := none }, broken := 0,
    needed := 6, lives := 3 }

/-- A completed arrange session (used to exercise the sticky-completion
theorem at a concrete point). -/
def c9Sim : SimData × GameState :=
  (.arrangeS { items := [], targetOrder := [], selected := none },
   { createInitialGameState cfg76623 with completed := true })

/-! ### Theorems -/

theorem mulberryNext_fst_lt (s : Nat) : (mulberryNext s).1 < m32 :=
  Nat.mod_lt _ (by decide)

theorem pickIndex_lt {r n : Nat} (hr : r < m32) (hn : 0 < n) :
    pickIndex r n < n := by
  have h : r * n < n * m32 := by
    have h2 : n * r < n * m32 := (Nat.mul_lt_mul_left hn).mpr hr
    rw [Nat.mul_comm r n]
    exact h2
  exact (Nat.div_lt_iff_lt_mul (by decide : 0 < m32)).mpr h

theorem pickRandom_sound {l : List α} {r : Nat} (hr : r < m32)
    (hl : l ≠ []) : ∃ a, pickRandom l r = some a ∧ a ∈ l := by
  have hlen : 0 < l.length := List.length_pos.mpr hl
  have hidx : pickIndex r l.length < l.length := pickIndex_lt hr hlen
  refine ⟨l.get ⟨pickIndex r l.length, hidx⟩, ?_, List.get_mem l _ hidx⟩
  simp [pickRandom, List.getElem?_eq_getElem hidx]

theorem cons_set_perm :
    ∀ (t : List α) (m : Nat) (a b : α), t[m]? = some b →
      List.Perm (b :: t.set m a) (a :: t) := by
  intro t
  induction t with
  | nil => intro m a b h; simp at h
  | cons x xs ih =>
    intro m a b h
    cases m with
    | zero =>
      simp at h
      subst h
      simpa using List.Perm.swap a x xs
    | succ k =>
      simp at h
      have h1 : List.Perm (b :: xs.set k a) (a :: xs) := ih k a b h
      have h2 : List.Perm (b :: x :: xs.set k a) (x :: b :: xs.set k a) :=
        List.Perm.swap x b _
      have h3 : List.Perm (x :: b :: xs.set k a) (x :: a :: xs) :=
        List.Perm.cons x h1
      have h4 : List.Perm (x :: a :: xs) (a :: x :: xs) :=
        List.Perm.swap a x xs
      simpa using (h2.trans h3).trans h4

theorem set_set_perm :
    ∀ (l : List α) (i j : Nat) (a b : α), l[i]? = some a → l[j]? = some b →
      List.Perm ((l.set i b).set j a) l := by
  intro l
  induction l with
  | nil => intro i j a b h; simp at h
  | cons x xs ih =>
    intro i j a b hi hj
    cases i with
    | zero =>
      simp at hi
      subst hi
      cases j with
      | zero =>
        simp at hj
        subst hj
        simp
      | succ m =>
        simp at hj
        simpa using cons_set_perm xs m x b hj
    | succ k =>
      cases j with
      | zero =>
        simp at hj
        subst hj
        simp at hi
        simpa using cons_set_perm xs k x a hi
      | succ m =>
        simp at hi hj
        simpa using List.Perm.cons x (ih k m a b hi hj)

theorem listSwap_perm (l : List α) (i j : Nat) :
    List.Perm (listSwap l i j) l := by
  unfold listSwap
  cases hi : l[i]? with
  | none => exact List.Perm.refl l
  | some a =>
    cases hj : l[j]? with
    | none => exact List.Perm.refl l
    | some b => exact set_set_perm l i j a b hi hj

theorem shuffleAux_perm (nextFn : σ → Nat × σ) :
    ∀ (n : Nat) (l : List α) (g : σ),
      List.Perm (shuffleAux nextFn n l g).1 l := by
  intro n
  induction n with
  | zero => intro l g; exact List.Perm.refl l
  | succ i ih =>
    intro l g
    exact (ih _ _).trans (listSwap_perm l (i + 1) _)

theorem MECHANICS_ne_nil : MECHANICS ≠ [] := by decide

theorem MODIFIERS_ne_nil : MODIFIERS ≠ [] := by decide

theorem combos_ne_nil (m : Mechanic) : COMPATIBLE_COMBOS m ≠ [] := by
  cases m <;> decide

theorem constraints_ne_nil (m : Mechanic) :
    COMPATIBLE_CONSTRAINTS m ≠ [] := by
  cases m <;> decide

theorem drawConfigCore_sound (s0 : Nat) :
    ∃ m e c mo d, drawConfigCore s0 = some (m, e, c, mo, d) ∧
      e ∈ COMPATIBLE_COMBOS m ∧ c ∈ COMPATIBLE_CONSTRAINTS m := by
  obtain ⟨m, hm, _⟩ :=
    pickRandom_sound (mulberryNext_fst_lt s0) MECHANICS_ne_nil
  obtain ⟨e, he, hem⟩ :=
    pickRandom_sound (mulberryNext_fst_lt (mulberryNext s0).2)
      (combos_ne_nil m)
  obtain ⟨c, hc, hcm⟩ :=
    pickRandom_sound
      (mulberryNext_fst_lt (mulberryNext (mulberryNext s0).2).2)
      (constraints_ne_nil m)
  unfold drawConfigCore
  rw [hm]
  simp only [Option.some_bind]
  rw [he]
  simp only [Option.some_bind]
  rw [hc]
  rw [Option.some_bind]
  split
  · obtain ⟨mo, hmo, _⟩ :=
      pickRandom_sound
        (mulberryNext_fst_lt
          (mulberryNext
            (mulberryNext (mulberryNext (mulberryNext s0).2).2).2).2)
        MODIFIERS_ne_nil
    rw [hmo]
    exact ⟨m, e, c, some mo, _, rfl, hem, hcm⟩
  · exact ⟨m, e, c, none, _, rfl, hem, hcm⟩

theorem generateGameConfig_map_core (seed : Int) :
    (generateGameConfig seed).map configCore =
      drawConfigCore (seedState seed) := by
  unfold generateGameConfig
  cases drawConfigCore (seedState seed) with
  | none => rfl
  | some v => rfl

/-- C2.  `generateGameConfig` is a pure function of its integer seed: every
drawn field is determined by the 32-bit truncation of the seed (the only
state the source's fresh `createSeededRandom(seed)` closure starts from),
so two calls with the same seed — indeed with any two seeds sharing the
same 32-bit pattern — return identical mechanic, element, constraint,
modifier and difficulty. -/
theorem C2_generateGameConfig_deterministic (s t : Int)
    (h : seedState s = seedState t) :
    (generateGameConfig s).map configCore =
      (generateGameConfig t).map configCore := by
  rw [generateGameConfig_map_core, generateGameConfig_map_core, h]

/-- Witness for C2 at two concrete seeds with equal 32-bit state
(`5` and `5 + 2^32`); in particular two calls at seed 5 agree. -/
theorem C2_witness :
    (generateGameConfig 5).map configCore =
      (generateGameConfig 4294967301).map configCore :=
  C2_generateGameConfig_deterministic 5 4294967301 (by decide)

/-- C3.  For every seed the generated config exists and respects both
compatibility tables: the element is drawn from the per-mechanic element
whitelist and the constraint from the per-mechanic constraint whitelist. -/
theorem C3_config_respects_whitelists (seed : Int) :
    ∃ c, generateGameConfig seed = some c ∧
      c.element ∈ COMPATIBLE_COMBOS c.mechanic ∧
      c.constraint ∈ COMPATIBLE_CONSTRAINTS c.mechanic := by
  obtain ⟨m, e, c, mo, d, hdraw, hem, hcm⟩ :=
    drawConfigCore_sound (seedState seed)
  refine ⟨{ mechanic := m, element := e, constraint := c, modifier := mo,
            seed := seed, difficulty := d }, ?_, hem, hcm⟩
  unfold generateGameConfig
  rw [hdraw]
  rfl

/-- C4.  Daily-seed round trip: for every calendar date (0-based month at
most 11, day between 1 and 31) the integer-division/modulo inverse recovers
exactly the encoded `(year, month, day)` triple. -/
theorem C4_daily_seed_round_trip (d : CalDate) (hm : d.month ≤ 11)
    (hd1 : 1 ≤ d.day) (hd2 : d.day ≤ 31) :
    getDateFromSeed (getDailySeed d) = d := by
  obtain ⟨y, m, dd⟩ := d
  simp only [getDailySeed, getDateFromSeed, CalDate.mk.injEq] at *
  refine ⟨?_, ?_, ?_⟩ <;> omega

/-- Witness for C4 at the concrete date 2025-10-11 (month 9 0-based). -/
theorem C4_witness :
    getDateFromSeed (getDailySeed ⟨2025, 9, 11⟩) = ⟨2025, 9, 11⟩ :=
  C4_daily_seed_round_trip ⟨2025, 9, 11⟩ (by decide) (by decide) (by decide)

/-- C5 counterexample.  The uniform-pick helper does **not** clamp its index
to `length - 1`: at the floating-point edge `next() = 1.0` (numerator
`2^32`, a legal value of the arbitrary `random` callback `pickRandom`
accepts) the computed index equals the length of a two-element list and the
read is out of bounds (`undefined`), where the claimed clamp would have
returned the last element. -/
theorem C5_counterexample :
    pickIndex m32 2 = 2 ∧ pickRandom [10, 20] m32 = none := by
  constructor
  · decide
  · rfl

/-- C5 as amended.  `pickRandom` computes its index as
`floor(next() * length)` with no defensive clamp; nevertheless, for every
generator value strictly below 1 (numerator `< 2^32` — which is all
mulberry32 can produce, see `mulberryNext_fst_lt`) the index is strictly
less than the length, so a pick from a non-empty list never reads out of
bounds and always returns a member of the list. -/
theorem C5_pick_in_bounds_without_clamp {α : Type} (l : List α) (r : Nat)
    (hr : r < m32) (hl : l ≠ []) :
    pickIndex r l.length < l.length ∧
      ∃ a, pickRandom l r = some a ∧ a ∈ l :=
  ⟨pickIndex_lt hr (List.length_pos.mpr hl),
   pickRandom_sound hr hl⟩

/-- Witness for the amended C5 at the largest numerator mulberry32 can
produce and a concrete two-element list. -/
theorem C5_witness :
    pickIndex 4294967295 2 < 2 ∧
      ∃ a, pickRandom [10, 20] 4294967295 = some a ∧ a ∈ [10, 20] :=
  C5_pick_in_bounds_without_clamp [10, 20] 4294967295 (by decide)
    (by decide)

/-- C10.  For every input list and every random stream whose values lie in
`[0, 1)` (numerator `< 2^32`), `shuffleArray` returns a permutation of the
input — same elements, same multiplicities; and being a pure function of
an explicitly copied list, it leaves its input unchanged. -/
theorem C10_shuffle_is_permutation {α σ : Type} (l : List α) (g : σ)
    (nextFn : σ → Nat × σ) (hf : ∀ s, (nextFn s).1 < m32) :
    List.Perm (shuffleArray l g nextFn).1 l :=
  shuffleAux_perm nextFn (l.length - 1) l g

/-- Witness for C10: a concrete shuffle driven by the real mulberry32
stream is a permutation of `[1, 2, 3, 4]`. -/
theorem C10_witness :
    List.Perm (shuffleArray [1, 2, 3, 4] (seedState 7) mulberryNext).1
      [1, 2, 3, 4] :=
  C10_shuffle_is_permutation [1, 2, 3, 4] (seedState 7) mulberryNext
    mulberryNext_fst_lt

/-- C6 failing input.  Seed 76623 generates an arrange/numbers game of
difficulty 2 (no modifier), and the init effect's single Fisher–Yates
shuffle of the six items lands exactly on the precomputed target order
`[5, 4, 0, 1, 3, 2]` — the generator performs no rejection of an
already-sorted shuffle, so this session starts already solved, which the
spec explicitly forbids for arrays longer than 1. -/
theorem C6_initial_arrangement_equals_target_at_76623 :
    (generateGameConfig 76623).map configCore =
      some (.arrange, .numbers, .grid, none, 2) ∧
    (arrangeInitNumbers 76623 2).items.map (·.id) =
      (arrangeInitNumbers 76623 2).targetOrder ∧
    1 < (arrangeInitNumbers 76623 2).items.length := by
  refine ⟨?_, ?_, ?_⟩
  · rfl
  · rfl
  · decide

/-- C7.  When the move that exhausts `maxAttempts` is incorrect and the win
condition is not met, each of the three cited mechanics completes as a loss
in that same transition, with the per-mechanic score asymmetry: the arrange
(sorting) and deduce (deduction) handlers zero the score, while the hunt
handler leaves the score earned before the final miss untouched. -/
theorem C7_loss_score_asymmetry :
    (∀ (d : ArrangeData) (s : GameState) (sel index : Nat) (now : Int),
      s.completed = false → d.selected = some sel → sel ≠ index →
      (listSwap d.items sel index).map (·.id) ≠ d.targetOrder →
      s.maxAttempts ≤ s.attempts + 1 →
      (arrangeHandleSelect d s index now).2.completed = true ∧
      (arrangeHandleSelect d s index now).2.won = false ∧
      (arrangeHandleSelect d s index now).2.score = 0) ∧
    (∀ (d : DeduceData) (s : GameState) (guess : TVal) (now : Int),
      s.completed = false →
      (guess == d.target || tvalLowerEq guess d.target) = false →
      s.maxAttempts ≤ s.attempts + 1 →
      (deduceSubmitGuess d s (some guess) now).2.2.completed = true ∧
      (deduceSubmitGuess d s (some guess) now).2.2.won = false ∧
      (deduceSubmitGuess d s (some guess) now).2.2.score = 0) ∧
    (∀ (d : HuntData) (s : GameState) (item : HiddenItem) (now : Int),
      s.completed = false → item.found = false → item.isTarget = false →
      s.maxAttempts ≤ s.attempts + 1 →
      (huntHandleClick d s item now).2.completed = true ∧
      (huntHandleClick d s item now).2.won = false ∧
      (huntHandleClick d s item now).2.score = s.score) := by
  refine ⟨?_, ?_, ?_⟩
  · intro d s sel index now hc hsel hne hnc hmax
    have hncb :
        ((listSwap d.items sel index).map (·.id) == d.targetOrder) = false :=
      beq_eq_false_iff_ne.mpr hnc
    simp [arrangeHandleSelect, hc, hsel, hne, hncb, hmax]
  · intro d s guess now hc hfalse hmax
    simp [deduceSubmitGuess, hc, hfalse, hmax]
  · intro d s item now hc hfound htarget hmax
    simp [huntHandleClick, hc, hfound, htarget, hmax]

/-- Witness for C7: all three loss branches evaluated at concrete
one-attempt-left sessions. -/
theorem C7_witness :
    ((arrangeHandleSelect
        { items := [{ id := 0, value := "1", sortValue := 1, color := none },
                    { id := 1, value := "2", sortValue := 2, color := none }],
          targetOrder := [0, 1], selected := some 0 }
        { createInitialGameState cfg76623 with maxAttempts := 1 } 1
        0).2.completed = true ∧
      (arrangeHandleSelect
        { items := [{ id := 0, value := "1", sortValue := 1, color := none },
                    { id := 1, value := "2", sortValue := 2, color := none }],
          targetOrder := [0, 1], selected := some 0 }
        { createInitialGameState cfg76623 with maxAttempts := 1 } 1
        0).2.won = false ∧
      (arrangeHandleSelect
        { items := [{ id := 0, value := "1", sortValue := 1, color := none },
                    { id := 1, value := "2", sortValue := 2, color := none }],
          targetOrder := [0, 1], selected := some 0 }
        { createInitialGameState cfg76623 with maxAttempts := 1 } 1
        0).2.score = 0) ∧
    ((deduceSubmitGuess
        { target := .n 5, clues := [], guesses := [], options := [],
          revealedClues := 1 }
        { createInitialGameState cfg76623 with maxAttempts := 1 }
        (some (.n 3)) 0).2.2.completed = true ∧
      (deduceSubmitGuess
        { target := .n 5, clues := [], guesses := [], options := [],
          revealedClues := 1 }
        { createInitialGameState cfg76623 with maxAttempts := 1 }
        (some (.n 3)) 0).2.2.won = false ∧
      (deduceSubmitGuess
        { target := .n 5, clues := [], guesses := [], options := [],
          revealedClues := 1 }
        { createInitialGameState cfg76623 with maxAttempts := 1 }
        (some (.n 3)) 0).2.2.score = 0) ∧
    ((huntHandleClick
        { items := [], target := { value := "★", color := none },
          found := 2, totalTargets := 5, round := 1 }
        { createInitialGameState cfg76623 with
            maxAttempts := 1, score := 40 }
        { id := 0, value := "x", color := none, x := 0, y := 0,
          found := false, isTarget := false } 0).2.completed = true ∧
      (huntHandleClick
        { items := [], target := { value := "★", color := none },
          found := 2, totalTargets := 5, round := 1 }
        { createInitialGameState cfg76623 with
            maxAttempts := 1, score := 40 }
        { id := 0, value := "x", color := none, x := 0, y := 0,
          found := false, isTarget := false } 0).2.won = false ∧
      (huntHandleClick
        { items := [], target := { value := "★", color := none },
          found := 2, totalTargets := 5, round := 1 }
        { createInitialGameState cfg76623 with
            maxAttempts := 1, score := 40 }
        { id := 0, value := "x", color := none, x := 0, y := 0,
          found := false, isTarget := false } 0).2.score = 40) :=
  ⟨C7_loss_score_asymmetry.1 _ _ 0 1 0 rfl rfl (by decide) (by decide)
      (by decide),
   C7_loss_score_asymmetry.2.1 _ _ (.n 3) 0 rfl (by decide) (by decide),
   C7_loss_score_asymmetry.2.2 _ _ _ 0 rfl rfl rfl (by decide)⟩

set_option maxRecDepth 8000 in
/-- C8 failing run.  On the seed-110 match deck (`maxAttempts = 20`), 14
repeated mismatches followed by correct pairs drive `attempts` to 20 with
the session still active (reaching the cap without winning does not force
completion, because the correct-match branch never tests the cap) and then
to 21 — `attempts > maxAttempts` in a reachable, still-active session
state, violating the claimed invariant. -/
theorem C8_match_attempts_exceed_maxAttempts :
    (generateGameConfig 110).map configCore =
      some (.«match», .numbers, .grid, none, 2) ∧
    c8Start.2.maxAttempts = 20 ∧
    (runMatchClicks c8Start (c8Clicks.take 40)).2.attempts = 20 ∧
    (runMatchClicks c8Start (c8Clicks.take 40)).2.completed = false ∧
    (runMatchClicks c8Start c8Clicks).2.attempts = 21 ∧
    (runMatchClicks c8Start c8Clicks).2.completed = false ∧
    (runMatchClicks c8Start c8Clicks).1.matchedPairs = 7 ∧
    (runMatchClicks c8Start c8Clicks).1.totalPairs = 8 :=
  ⟨rfl, rfl, rfl, rfl, rfl, rfl, rfl, rfl⟩

theorem stepEvent_completed_noop (sd : SimData) (s : GameState)
    (ev : GEvent) (h : s.completed = true) :
    stepEvent ev (sd, s) = (sd, s) := by
  cases ev <;> cases sd <;>
    simp [stepEvent, guessSubmitGuess, matchHandleClick,
      rememberHandleInput, reactHandleClick, reactTimerStep,
      arrangeHandleSelect, deduceSubmitGuess, deduceRevealClue,
      traceHandleInput, huntHandleClick, huntTimerStep, stackHandleCatch,
      stackTimerStep, dodgeCollideStep, dodgeTimerStep, chaseMovePlayer,
      chaseCollideStep, chaseTimerStep, bounceFrame, bounceCheckStep, h]

/-- C9.  `completed` is sticky: on a completed session every embedded
tick, timer and input handler of every mechanic is a no-op (each one
guards on `state.completed`, and completion-gated effects are not
rescheduled), so an arbitrary further event stream leaves the session —
including its `completed` flag — exactly unchanged, and the terminal
transition cannot be taken twice. -/
theorem C9_completed_is_sticky (sim : SimData × GameState)
    (h : sim.2.completed = true) (evs : List GEvent) :
    runEvents evs sim = sim := by
  obtain ⟨sd, s⟩ := sim
  induction evs with
  | nil => rfl
  | cons e es ih =>
    unfold runEvents at *
    rw [List.foldl_cons, stepEvent_completed_noop sd s e h]
    exact ih

/-- Witness for C9: a concrete completed arrange session survives a mixed
event stream (input, clue reveal, timer, win-check) unchanged. -/
theorem C9_witness :
    runEvents [.arrangeSelect 0 0, .deduceReveal, .huntTimer, .bounceCheck]
      c9Sim = c9Sim :=
  C9_completed_is_sticky c9Sim rfl _

/-- C1 failing evaluation.  The `BounceGame` tick that loses a ball with
lives remaining resets the ball with `dx = (Math.random() - 0.5) * 60` — a
draw from the non-seeded source.  Two runs from the same seed-derived
state, fed the identical tick delta and inputs, diverge depending only on
that unseeded oracle value, refuting bit-for-bit reproducibility from the
seed.  (`StackGame`'s spawner similarly keys a fresh stream off
`Date.now()` and ids off `Date.now() + Math.random()`.) -/
theorem C1_bounce_reset_draws_unseeded_random :
    bounceTick c1Pre (1 / 10) false false 0 ≠
      bounceTick c1Pre (1 / 10) false false (1 / 2) ∧
    (bounceTick c1Pre (1 / 10) false false 0).ball.dx = -30 ∧
    (bounceTick c1Pre (1 / 10) false false (1 / 2)).ball.dx = 0 ∧
    (bounceTick c1Pre (1 / 10) false false 0).lives = 2 := by
  have h0 : (bounceTick c1Pre (1 / 10) false false 0).ball.dx = -30 := by
    norm_num [bounceTick, c1Pre]
  have h1 : (bounceTick c1Pre (1 / 10) false false (1 / 2)).ball.dx = 0 := by
    norm_num [bounceTick, c1Pre]
  refine ⟨fun h => ?_, h0, h1, by norm_num [bounceTick, c1Pre]⟩
  rw [h, h1] at h0
  norm_num at h0

end Gamle
